import Mathlib

/-!
Verification of the direct_bt BLE client library core: the EIR/AD element
decoder (`EInfoReport`, `EUI48` in BTTypes.cpp) and the client-side GATT
protocol engine (GATTHandler.cpp), shallowly embedded over byte lists.
Buffers are `List Nat` of byte values; machine integers are `Nat`/`Int`.
-/

namespace DirectBT

/-! ## Octet primitives

`byteAt` is `data[i]`; reads past the end give 0, but every embedded
routine guards its reads exactly as the C++ source does. -/

def byteAt (data : List Nat) (i : Nat) : Nat := data.getD i 0

/-- The sub-buffer `data + off` of length `len` (a net-data pointer plus
the known element length). -/
def slice (data : List Nat) (off len : Nat) : List Nat := (data.drop off).take len

/-- `get_uint16(data, offset, littleEndian=true)` of the octet primitives. -/
def get_uint16 (data : List Nat) (off : Nat) : Nat :=
  byteAt data off + 256 * byteAt data (off + 1)

/-- `get_uint32(data, offset, littleEndian=true)` of the octet primitives. -/
def get_uint32 (data : List Nat) (off : Nat) : Nat :=
  byteAt data off + 256 * byteAt data (off + 1) + 65536 * byteAt data (off + 2)
    + 16777216 * byteAt data (off + 3)

/-- A 128-bit little-endian read, as `uuid128_t(buffer, offset, true)` performs. -/
def get_uint128 (data : List Nat) (off : Nat) : Nat :=
  (List.range 16).foldl (fun acc k => acc + byteAt data (off + k) * 256 ^ k) 0

/-- Reinterpreting a byte as C `int8_t` (the source's
`const_uint8_to_const_int8_ptr` dereference). -/
def toInt8 (b : Nat) : Int := if b % 256 < 128 then (b % 256 : Int) else (b % 256 : Int) - 256

/-! ## GAP AD element types

Numeric values of `GAP_T` (the `GATTNumbers.hpp` constants are the
Bluetooth assigned AD type numbers; the header itself is not among the
repository files, the values below are the assigned numbers the spec's
decode table names). -/

namespace GAP_T

def FLAGS : Nat := 0x01
def UUID16_INCOMPLETE : Nat := 0x02
def UUID16_COMPLETE : Nat := 0x03
def UUID32_INCOMPLETE : Nat := 0x04
def UUID32_COMPLETE : Nat := 0x05
def UUID128_INCOMPLETE : Nat := 0x06
def UUID128_COMPLETE : Nat := 0x07
def NAME_LOCAL_SHORT : Nat := 0x08
def NAME_LOCAL_COMPLETE : Nat := 0x09
def TX_POWER_LEVEL : Nat := 0x0A
def SSP_CLASS_OF_DEVICE : Nat := 0x0D
def SSP_HASH_C192 : Nat := 0x0E
def SSP_RANDOMIZER_R192 : Nat := 0x0F
def DEVICE_ID : Nat := 0x10
def SOLICIT_UUID16 : Nat := 0x14
def SOLICIT_UUID128 : Nat := 0x15
def SVC_DATA_UUID16 : Nat := 0x16
def PUB_TRGT_ADDR : Nat := 0x17
def RND_TRGT_ADDR : Nat := 0x18
def GAP_APPEARANCE : Nat := 0x19
def SOLICIT_UUID32 : Nat := 0x1F
def SVC_DATA_UUID32 : Nat := 0x20
def SVC_DATA_UUID128 : Nat := 0x21
def MANUFACTURE_SPECIFIC : Nat := 0xFF

end GAP_T

/-! ## The EInfoReport data model -/

/-- The `EIRDataType` dirty-mask bits (BTTypes.cpp `EIRDATATYPE_ENUM`).
The C++ bitmask is modelled as a duplicate-free list of these tags. -/
inductive EIRDataType where
  | NONE
  | EVT_TYPE
  | BDADDR_TYPE
  | BDADDR
  | FLAGS
  | NAME
  | NAME_SHORT
  | RSSI
  | TX_POWER
  | MANUF_DATA
  | DEVICE_CLASS
  | APPEARANCE
  | HASH
  | RANDOMIZER
  | DEVICE_ID
  | SERVICE_UUID
deriving DecidableEq

/-- A UUID value: the `uuid16_t` / `uuid32_t` / `uuid128_t` variants. -/
inductive UUIDVal where
  | u16 (v : Nat)
  | u32 (v : Nat)
  | u128 (v : Nat)
deriving DecidableEq

/-- The lower 96 bits of the Bluetooth Base UUID
`00000000-0000-1000-8000-00805F9B34FB`, into which 16/32-bit UUIDs embed. -/
def BT_BASE_UUID_TAIL : Nat := 0x00001000800000805F9B34FB

/-- The canonical 128-bit form (spec section 3: equality across widths
compares via the Bluetooth Base UUID). -/
def UUIDVal.toUUID128 : UUIDVal → Nat
  | .u16 v => v * 2 ^ 96 + BT_BASE_UUID_TAIL
  | .u32 v => v * 2 ^ 96 + BT_BASE_UUID_TAIL
  | .u128 v => v

/-- `*p == *uuid` on `uuid_t`: equality of the canonical 128-bit forms. -/
def uuidEq (a b : UUIDVal) : Bool := a.toUUID128 == b.toUUID128

/-- The `EInfoReport` record, restricted to the fields `read_data` can touch.
The C++ class is declared in `BTTypes.hpp` (not among the repository files);
fields and setters are reconstructed from their uses in BTTypes.cpp.
`unhandled` is modelled from the spec: "stash the raw (type, data) on the
report" for unhandled AD types — the source has no such storage, so no code
path of this embedding ever extends it. -/
structure EInfoReport where
  flags : Int
  name : List Nat
  name_short : List Nat
  tx_power : Int
  device_class : Nat
  appearance : Nat
  hash : List Nat
  randomizer : List Nat
  did_source : Nat
  did_vendor : Nat
  did_product : Nat
  did_version : Nat
  msd : Option (Nat × List Nat)
  services : List UUIDVal
  eir_data_mask : List EIRDataType
  unhandled : List (Nat × List Nat)
deriving DecidableEq

/-- A freshly constructed report (all fields default-initialised). -/
def EInfoReport.empty : EInfoReport :=
  ⟨0, [], [], 0, 0, 0, [], [], 0, 0, 0, 0, none, [], [], []⟩

/-- `EInfoReport::set(EIRDataType)`: mark a bit in the dirty mask. -/
def EInfoReport.set (r : EInfoReport) (t : EIRDataType) : EInfoReport :=
  { r with eir_data_mask := if t ∈ r.eir_data_mask then r.eir_data_mask else r.eir_data_mask ++ [t] }

/-- `get_string(buffer, buffer_len, 30)`: modelled from the spec ("truncated
to 30"); the helper's own code is not among the repository files. -/
def get_string (buffer : List Nat) (buffer_len cap : Nat) : List Nat :=
  (buffer.take buffer_len).take cap

def EInfoReport.setFlags (r : EInfoReport) (f : Int) : EInfoReport :=
  ({ r with flags := f }).set .FLAGS

def EInfoReport.setName (r : EInfoReport) (buffer : List Nat) (buffer_len : Nat) : EInfoReport :=
  ({ r with name := get_string buffer buffer_len 30 }).set .NAME

def EInfoReport.setShortName (r : EInfoReport) (buffer : List Nat) (buffer_len : Nat) : EInfoReport :=
  ({ r with name_short := get_string buffer buffer_len 30 }).set .NAME_SHORT

def EInfoReport.setTxPower (r : EInfoReport) (v : Int) : EInfoReport :=
  ({ r with tx_power := v }).set .TX_POWER

def EInfoReport.setDeviceClass (r : EInfoReport) (v : Nat) : EInfoReport :=
  ({ r with device_class := v }).set .DEVICE_CLASS

def EInfoReport.setAppearance (r : EInfoReport) (v : Nat) : EInfoReport :=
  ({ r with appearance := v }).set .APPEARANCE

def EInfoReport.setHash (r : EInfoReport) (buffer : List Nat) : EInfoReport :=
  ({ r with hash := buffer.take 16 }).set .HASH

def EInfoReport.setRandomizer (r : EInfoReport) (buffer : List Nat) : EInfoReport :=
  ({ r with randomizer := buffer.take 16 }).set .RANDOMIZER

def EInfoReport.setDeviceID (r : EInfoReport) (source vendor product version : Nat) : EInfoReport :=
  ({ r with did_source := source, did_vendor := vendor,
            did_product := product, did_version := version }).set .DEVICE_ID

def EInfoReport.setManufactureSpecificData (r : EInfoReport)
    (company : Nat) (data : List Nat) (data_len : Nat) : EInfoReport :=
  ({ r with msd := some (company, data.take data_len) }).set .MANUF_DATA

/-- `EInfoReport::addService`: push the UUID unless an equal one (by
canonical 128-bit value) is already present. -/
def EInfoReport.addService (r : EInfoReport) (u : UUIDVal) : EInfoReport :=
  if r.services.any (fun p => uuidEq p u) then r
  else { r with services := r.services ++ [u] }

/-! ## The EIR element iterator and decode loop (BTTypes.cpp 264-393) -/

/-- `errno` value `ENOENT`. -/
def ENOENT : Nat := 2

/-- `EInfoReport::next_data_elem` return value: `0` at end of significant
data, `-ENOENT` on truncation or exhausted buffer, else the next element's
offset `offset + 1 + len`.  The out-parameters `eir_elem_len`,
`eir_elem_type`, `eir_elem_data` are recovered below from `data` and
`offset` exactly as the source assigns them. -/
def next_data_elem (data : List Nat) (offset : Nat) (size : Nat) : Int :=
  if offset < size then
    if byteAt data offset = 0 then 0
    else if size < byteAt data offset + offset then -(ENOENT : Int)
    else ((offset + 1 + byteAt data offset : Nat) : Int)
  else -(ENOENT : Int)

/-- `*eir_elem_type = data[offset + 1]`. -/
def elemTypeAt (data : List Nat) (offset : Nat) : Nat := byteAt data (offset + 1)

/-- `*eir_elem_len = len - 1` (net data length). -/
def elemLenAt (data : List Nat) (offset : Nat) : Nat := byteAt data offset - 1

/-- `*eir_elem_data = data + offset + 2`, cut to the net data length. -/
def elemDataAt (data : List Nat) (offset : Nat) : List Nat :=
  slice data (offset + 2) (elemLenAt data offset)

/-- The body of the `read_data` decode switch (BTTypes.cpp 300-390) for one
element.  `data` is the whole buffer handed to `read_data`; the `DEVICE_ID`
branch reads `data[0..7]`, not the element's own `elem_data`, exactly as the
source does. -/
def process_elem (r : EInfoReport) (elem_type elem_len : Nat)
    (elem_data data : List Nat) : EInfoReport :=
  if elem_type = GAP_T.FLAGS then
    (if 1 ≤ elem_len then r.setFlags (toInt8 (byteAt elem_data 0)) else r)
  else if elem_type = GAP_T.UUID16_INCOMPLETE ∨ elem_type = GAP_T.UUID16_COMPLETE then
    (List.range (elem_len / 2)).foldl
      (fun s j => s.addService (UUIDVal.u16 (get_uint16 elem_data (j * 2)))) r
  else if elem_type = GAP_T.UUID32_INCOMPLETE ∨ elem_type = GAP_T.UUID32_COMPLETE then
    (List.range (elem_len / 4)).foldl
      (fun s j => s.addService (UUIDVal.u32 (get_uint32 elem_data (j * 4)))) r
  else if elem_type = GAP_T.UUID128_INCOMPLETE ∨ elem_type = GAP_T.UUID128_COMPLETE then
    (List.range (elem_len / 16)).foldl
      (fun s j => s.addService (UUIDVal.u128 (get_uint128 elem_data (j * 16)))) r
  else if elem_type = GAP_T.NAME_LOCAL_SHORT then
    r.setShortName elem_data elem_len
  else if elem_type = GAP_T.NAME_LOCAL_COMPLETE then
    r.setName elem_data elem_len
  else if elem_type = GAP_T.TX_POWER_LEVEL then
    (if 1 ≤ elem_len then r.setTxPower (toInt8 (byteAt elem_data 0)) else r)
  else if elem_type = GAP_T.SSP_CLASS_OF_DEVICE then
    (if 3 ≤ elem_len then
      r.setDeviceClass (byteAt elem_data 0 + 256 * byteAt elem_data 1
        + 65536 * byteAt elem_data 2)
     else r)
  else if elem_type = GAP_T.DEVICE_ID then
    (if 8 ≤ elem_len then
      r.setDeviceID (byteAt data 0 + 256 * byteAt data 1)
        (byteAt data 2 + 256 * byteAt data 3)
        (byteAt data 4 + 256 * byteAt data 5)
        (byteAt data 6 + 256 * byteAt data 7)
     else r)
  else if elem_type = GAP_T.SOLICIT_UUID16 ∨ elem_type = GAP_T.SOLICIT_UUID128
      ∨ elem_type = GAP_T.SVC_DATA_UUID16 ∨ elem_type = GAP_T.PUB_TRGT_ADDR
      ∨ elem_type = GAP_T.RND_TRGT_ADDR ∨ elem_type = GAP_T.GAP_APPEARANCE then
    (if 2 ≤ elem_len then r.setAppearance (get_uint16 elem_data 0) else r)
  else if elem_type = GAP_T.SSP_HASH_C192 then
    (if 16 ≤ elem_len then r.setHash elem_data else r)
  else if elem_type = GAP_T.SSP_RANDOMIZER_R192 then
    (if 16 ≤ elem_len then r.setRandomizer elem_data else r)
  else if elem_type = GAP_T.SOLICIT_UUID32 ∨ elem_type = GAP_T.SVC_DATA_UUID32
      ∨ elem_type = GAP_T.SVC_DATA_UUID128 then
    r
  else if elem_type = GAP_T.MANUFACTURE_SPECIFIC then
    (if 2 ≤ elem_len then
      r.setManufactureSpecificData (get_uint16 elem_data 0) (elem_data.drop 2) (elem_len - 2)
     else r)
  else
    -- default: a warning is printed; nothing is stored on the report
    r

/-- The `read_data` while-loop.  `fuel` bounds the iteration count; the
loop body mirrors BTTypes.cpp 293-391, and `read_data_fuel_irrelevant`
below shows the starting fuel `size + 1` is never exhausted. -/
def read_data_loop (data : List Nat) (size : Nat) :
    Nat → Nat → Nat → EInfoReport → Nat × EInfoReport
  | 0, _, count, r => (count, r)
  | fuel + 1, offset, count, r =>
    let nxt := next_data_elem data offset size
    if 0 < nxt then
      read_data_loop data size fuel nxt.toNat (count + 1)
        (process_elem r (elemTypeAt data offset) (elemLenAt data offset)
          (elemDataAt data offset) data)
    else (count, r)

/-- `EInfoReport::read_data(data, data_length)` on a fresh report, returning
the element count and the decoded report. -/
def read_data (data : List Nat) (data_length : Nat) : Nat × EInfoReport :=
  read_data_loop data data_length (data_length + 1) 0 0 EInfoReport.empty

/-- A successful `next_data_elem` stands at a real element: the offset was
inside the buffer and the return advances it by at least 2, to at most
`size + 1`. -/
lemma next_data_elem_pos_facts (data : List Nat) (offset size : Nat)
    (h : 0 < next_data_elem data offset size) :
    offset < size ∧ offset + 2 ≤ (next_data_elem data offset size).toNat ∧
      (next_data_elem data offset size).toNat ≤ size + 1 := by
  unfold next_data_elem at *
  split_ifs at * with h1 h2 h3
  · exact absurd h (by omega)
  · exact absurd h (by norm_num [ENOENT])
  · refine ⟨h1, ?_, ?_⟩ <;>
      simp only [Int.toNat_natCast] <;> omega
  · exact absurd h (by norm_num [ENOENT])

/-- Any fuel beyond `size - offset` rounds is never consumed: the loop's
result does not depend on it. -/
lemma read_data_loop_fuel (data : List Nat) (size : Nat) :
    ∀ f₁ f₂ offset count r, size < offset + f₁ → size < offset + f₂ →
      read_data_loop data size f₁ offset count r = read_data_loop data size f₂ offset count r := by
  intro f₁
  induction f₁ with
  | zero =>
    intro f₂ offset count r h1 h2
    have hnx : ¬ 0 < next_data_elem data offset size := by
      unfold next_data_elem
      have hno : ¬ offset < size := by omega
      rw [if_neg hno]
      norm_num [ENOENT]
    cases f₂ with
    | zero => rfl
    | succ b => simp only [read_data_loop, if_neg hnx]
  | succ a ih =>
    intro f₂ offset count r h1 h2
    by_cases hnx : 0 < next_data_elem data offset size
    · obtain ⟨ho, hlo, hhi⟩ := next_data_elem_pos_facts data offset size hnx
      cases f₂ with
      | zero => omega
      | succ b =>
        simp only [read_data_loop, if_pos hnx]
        exact ih b _ _ _ (by omega) (by omega)
    · cases f₂ with
      | zero => simp only [read_data_loop, if_neg hnx]
      | succ b => simp only [read_data_loop, if_neg hnx]

/-- Claim C10: `read_data` terminates.  `next_data_elem` either returns a
value `≤ 0` (end of significant data or truncation) or a next offset at
least `offset + 2` and at most `size + 1`, so the decode loop makes strict
progress bounded by the buffer length: starting fuel `size + 1` is never
exhausted, and extra fuel never changes the result. -/
theorem claim_C10 :
    (∀ (data : List Nat) (offset size : Nat),
      next_data_elem data offset size ≤ 0 ∨
        (offset + 2 ≤ (next_data_elem data offset size).toNat ∧
          (next_data_elem data offset size).toNat ≤ size + 1)) ∧
    (∀ (data : List Nat) (size extra count : Nat) (r : EInfoReport),
      read_data_loop data size (size + 1 + extra) 0 count r =
        read_data_loop data size (size + 1) 0 count r) := by
  constructor
  · intro data offset size
    by_cases h : 0 < next_data_elem data offset size
    · exact Or.inr (next_data_elem_pos_facts data offset size h).2
    · exact Or.inl (by omega)
  · intro data size extra count r
    exact read_data_loop_fuel data size _ _ 0 count r (by omega) (by omega)

/-- Claim C1: refuted on the source.  On the buffer
`02 01 06 | 09 10 01 02 03 04 05 06 07 08` (a FLAGS element followed by a
DEVICE_ID element whose own data is `01..08`), the source's DEVICE_ID
branch reads `data[0..7]` of the whole buffer, so the report carries
source/vendor/product/version `0x0102/0x0906/0x0110/0x0302` instead of the
element-slice values `0x0201/0x0403/0x0605/0x0807` the claim (and the spec)
require. -/
theorem claim_C1 :
    (read_data [2, 1, 6, 9, 16, 1, 2, 3, 4, 5, 6, 7, 8] 13).2.did_source = 0x0102 ∧
    (read_data [2, 1, 6, 9, 16, 1, 2, 3, 4, 5, 6, 7, 8] 13).2.did_vendor = 0x0906 ∧
    (read_data [2, 1, 6, 9, 16, 1, 2, 3, 4, 5, 6, 7, 8] 13).2.did_product = 0x0110 ∧
    (read_data [2, 1, 6, 9, 16, 1, 2, 3, 4, 5, 6, 7, 8] 13).2.did_version = 0x0302 ∧
    ¬ ((read_data [2, 1, 6, 9, 16, 1, 2, 3, 4, 5, 6, 7, 8] 13).2.did_source = 0x0201 ∧
       (read_data [2, 1, 6, 9, 16, 1, 2, 3, 4, 5, 6, 7, 8] 13).2.did_vendor = 0x0403 ∧
       (read_data [2, 1, 6, 9, 16, 1, 2, 3, 4, 5, 6, 7, 8] 13).2.did_product = 0x0605 ∧
       (read_data [2, 1, 6, 9, 16, 1, 2, 3, 4, 5, 6, 7, 8] 13).2.did_version = 0x0807) := by
  decide

/-- Claim C7: refuted on the source.  On the buffer
`03 14 34 12 | 02 30 AA` (a SOLICIT_UUID16 element — not a type of the
spec's decode table — followed by an element of unknown type `0x30`), the
source sets the report's appearance to `0x1234` from the SOLICIT_UUID16
element and records neither element's raw (type, data): the default branch
only prints a warning, so nothing is ever stashed as unhandled. -/
theorem claim_C7 :
    (read_data [3, 20, 52, 18, 2, 48, 170] 7).2.appearance = 0x1234 ∧
    EIRDataType.APPEARANCE ∈ (read_data [3, 20, 52, 18, 2, 48, 170] 7).2.eir_data_mask ∧
    (read_data [3, 20, 52, 18, 2, 48, 170] 7).2.unhandled = [] ∧
    (read_data [3, 20, 52, 18, 2, 48, 170] 7).1 = 2 := by
  decide

/-! ## EUI48 addresses (BTTypes.cpp 57-97)

Strings are byte lists of character codes (`58` is the colon). -/

/-- C `toupper` on a character code. -/
def toUpperN (c : Nat) : Nat := if 97 ≤ c ∧ c ≤ 122 then c - 32 else c

/-- Is `c` the code of a hexadecimal digit (what `sscanf`'s `%02hhx`
consumes)? -/
def isHexDigitN (c : Nat) : Bool :=
  (48 ≤ c && c ≤ 57) || (65 ≤ c && c ≤ 70) || (97 ≤ c && c ≤ 102)

/-- The numeric value of a hex digit code. -/
def hexVal (c : Nat) : Nat :=
  if c ≤ 57 then c - 48 else if c ≤ 70 then c - 55 else c - 87

/-- The upper-case hex digit code of a value below 16 (what `%2.2X`
prints). -/
def hexDigitUpper (v : Nat) : Nat := if v < 10 then v + 48 else v + 55

/-- One byte as two upper-case hex digit codes. -/
def byteToHexUpper (b : Nat) : List Nat := [hexDigitUpper (b / 16), hexDigitUpper (b % 16)]

/-- The value of the two hex digit codes at `s[i] s[i+1]`, as `%02hhx`
stores it. -/
def hexPairVal (s : List Nat) (i : Nat) : Nat :=
  hexVal (byteAt s i) * 16 + hexVal (byteAt s (i + 1))

/-- The six address octets, LSB first (`b[0] .. b[5]`). -/
structure EUI48 where
  b : List Nat
deriving DecidableEq

/-- `EUI48::EUI48(const std::string)`: `sscanf(str, "%02hhx:...")` assigns
the textual pairs, left to right, to `b[5], b[4], b[3], b[2], b[1], b[0]`.
(On an ill-formed 17-character string the constructor throws; the claim
quantifies over well-formed strings only.) -/
def EUI48.fromString (s : List Nat) : EUI48 :=
  ⟨[hexPairVal s 15, hexPairVal s 12, hexPairVal s 9,
    hexPairVal s 6, hexPairVal s 3, hexPairVal s 0]⟩

/-- `EUI48::toString`: `snprintf("%2.2X:%2.2X:%2.2X:%2.2X:%2.2X:%2.2X",
b[5], b[4], b[3], b[2], b[1], b[0])`. -/
def EUI48.toString (a : EUI48) : List Nat :=
  byteToHexUpper (byteAt a.b 5) ++ 58 ::
  (byteToHexUpper (byteAt a.b 4) ++ 58 ::
  (byteToHexUpper (byteAt a.b 3) ++ 58 ::
  (byteToHexUpper (byteAt a.b 2) ++ 58 ::
  (byteToHexUpper (byteAt a.b 1) ++ 58 ::
  byteToHexUpper (byteAt a.b 0)))))

/-- A valid EUI-48 string: exactly 17 characters, a well-formed
`XX:XX:XX:XX:XX:XX` hex triplet sequence. -/
def validEUI48 : List Nat → Bool
  | [a0, a1, c1, a2, a3, c2, a4, a5, c3, a6, a7, c4, a8, a9, c5, a10, a11] =>
    (c1 == 58) && ((c2 == 58) && ((c3 == 58) && ((c4 == 58) && ((c5 == 58) &&
    (isHexDigitN a0 && (isHexDigitN a1 && (isHexDigitN a2 && (isHexDigitN a3 &&
    (isHexDigitN a4 && (isHexDigitN a5 && (isHexDigitN a6 && (isHexDigitN a7 &&
    (isHexDigitN a8 && (isHexDigitN a9 && (isHexDigitN a10 && isHexDigitN a11)))))))))))))))
  | _ => false

lemma hexVal_lt_16 {c : Nat} (h : isHexDigitN c = true) : hexVal c < 16 := by
  simp only [isHexDigitN, Bool.or_eq_true, Bool.and_eq_true, decide_eq_true_eq] at h
  unfold hexVal
  split_ifs <;> omega

lemma hexDigitUpper_hexVal {c : Nat} (h : isHexDigitN c = true) :
    hexDigitUpper (hexVal c) = toUpperN c := by
  simp only [isHexDigitN, Bool.or_eq_true, Bool.and_eq_true, decide_eq_true_eq] at h
  unfold hexDigitUpper hexVal toUpperN
  split_ifs <;> omega

lemma byteToHexUpper_pair {a b : Nat} (ha : isHexDigitN a = true)
    (hb : isHexDigitN b = true) :
    byteToHexUpper (hexVal a * 16 + hexVal b) = [toUpperN a, toUpperN b] := by
  have h1 : hexVal a < 16 := hexVal_lt_16 ha
  have h2 : hexVal b < 16 := hexVal_lt_16 hb
  have hdiv : (hexVal a * 16 + hexVal b) / 16 = hexVal a := by omega
  have hmod : (hexVal a * 16 + hexVal b) % 16 = hexVal b := by omega
  unfold byteToHexUpper
  rw [hdiv, hmod, hexDigitUpper_hexVal ha, hexDigitUpper_hexVal hb]

lemma toUpperN_colon : toUpperN 58 = 58 := rfl

/-- Claim C8: for every valid EUI-48 string `s` (17 characters, a
well-formed `XX:XX:XX:XX:XX:XX` hex triplet sequence), constructing
`EUI48(s)` and calling `toString()` yields `s` converted to upper case. -/
theorem claim_C8 (s : List Nat) (h : validEUI48 s = true) :
    (EUI48.fromString s).toString = s.map toUpperN := by
  rcases s with _ | ⟨a0, _ | ⟨a1, _ | ⟨c1, _ | ⟨a2, _ | ⟨a3, _ | ⟨c2, _ | ⟨a4, _ | ⟨a5,
    _ | ⟨c3, _ | ⟨a6, _ | ⟨a7, _ | ⟨c4, _ | ⟨a8, _ | ⟨a9, _ | ⟨c5, _ | ⟨a10,
    _ | ⟨a11, _ | ⟨x, t⟩⟩⟩⟩⟩⟩⟩⟩⟩⟩⟩⟩⟩⟩⟩⟩⟩⟩ <;>
    simp only [validEUI48, Bool.and_eq_true, beq_iff_eq] at h
  all_goals try exact absurd h Bool.false_ne_true
  obtain ⟨hc1, hc2, hc3, hc4, hc5, h0, h1, h2, h3, h4, h5, h6, h7, h8, h9, h10, h11⟩ := h
  subst hc1 hc2 hc3 hc4 hc5
  rw [show (EUI48.fromString
      [a0, a1, 58, a2, a3, 58, a4, a5, 58, a6, a7, 58, a8, a9, 58, a10, a11]).toString =
    byteToHexUpper (hexVal a0 * 16 + hexVal a1) ++ 58 ::
    (byteToHexUpper (hexVal a2 * 16 + hexVal a3) ++ 58 ::
    (byteToHexUpper (hexVal a4 * 16 + hexVal a5) ++ 58 ::
    (byteToHexUpper (hexVal a6 * 16 + hexVal a7) ++ 58 ::
    (byteToHexUpper (hexVal a8 * 16 + hexVal a9) ++ 58 ::
    byteToHexUpper (hexVal a10 * 16 + hexVal a11))))) from rfl]
  rw [byteToHexUpper_pair h0 h1, byteToHexUpper_pair h2 h3, byteToHexUpper_pair h4 h5,
    byteToHexUpper_pair h6 h7, byteToHexUpper_pair h8 h9, byteToHexUpper_pair h10 h11]
  simp only [List.map_cons, List.map_nil, toUpperN_colon, List.cons_append, List.nil_append]

/-- Claim C8 witness: the lower-case string `"01:23:45:67:89:ab"` parses
and prints back as `"01:23:45:67:89:AB"`, its upper-casing. -/
theorem claim_C8_witness :
    validEUI48 [48, 49, 58, 50, 51, 58, 52, 53, 58, 54, 55, 58, 56, 57, 58, 97, 98] = true ∧
    (EUI48.fromString
        [48, 49, 58, 50, 51, 58, 52, 53, 58, 54, 55, 58, 56, 57, 58, 97, 98]).toString =
      List.map toUpperN [48, 49, 58, 50, 51, 58, 52, 53, 58, 54, 55, 58, 56, 57, 58, 97, 98] :=
  ⟨by decide, claim_C8 [48, 49, 58, 50, 51, 58, 52, 53, 58, 54, 55, 58, 56, 57, 58, 97, 98]
    (by decide)⟩

/-! ## The GATT engine (GATTHandler.cpp)

The engine's synchronous procedures consume one typed response PDU per
request; a procedure run is embedded as a function of the list of
responses it receives, in arrival order. -/

/-- ATT error code `Attribute Not Long` (`AttErrorRsp::ATTRIBUTE_NOT_LONG`). -/
def ATTRIBUTE_NOT_LONG : Nat := 0x0B

/-- `GATTHandler::send` (GATTHandler.cpp 247-263), with the L2CAP channel
abstracted: `connected` is `Disconnected < validateState()`, `writeResult`
is what `l2cap->write` would return for this PDU.  The result pairs the
outcome with the list of payload sizes actually written to the channel. -/
inductive SendOutcome where
  | notConnected
  | illegalArgument
  | writeError
  | sent (ok : Bool)
deriving DecidableEq

def GATTsend (connected : Bool) (usedMTU msgSize : Nat) (writeResult : Int) :
    SendOutcome × List Nat :=
  if connected = false then (.notConnected, [])
  else if usedMTU < msgSize then (.illegalArgument, [])
  else if writeResult < 0 then (.writeError, [msgSize])
  else (.sent (writeResult == (msgSize : Int)), [msgSize])

/-- Claim C4: on a connected engine, a PDU larger than `used_mtu` makes
`send` fail with `IllegalArgumentException` before anything is written to
the L2CAP channel. -/
theorem claim_C4 (usedMTU msgSize : Nat) (writeResult : Int)
    (h : usedMTU < msgSize) :
    GATTsend true usedMTU msgSize writeResult = (.illegalArgument, []) := by
  simp [GATTsend, h]

/-- Claim C4 witness: after negotiating `used_mtu = 185`, sending a
186-byte PDU raises `IllegalArgument` and writes nothing. -/
theorem claim_C4_witness :
    185 < 186 ∧ GATTsend true 185 186 186 = (.illegalArgument, []) :=
  ⟨by decide, claim_C4 185 186 186 (by decide)⟩

/-- `GATTHandler::exchangeMTU` reply handling (GATTHandler.cpp 280-293):
`some m` is an `ATT_EXCHANGE_MTU_RSP` carrying MTU `m`, `none` any other
opcode; the returned MTU stays 0 unless the expected response arrived. -/
def exchangeMTU_reply (rsp : Option Nat) : Nat :=
  match rsp with
  | some m => m
  | none => 0

/-- The MTU negotiation step of `GATTHandler::connect`
(GATTHandler.cpp 207-213): from the exchanged value `mtu` and the previous
`serverMTU`, the new `(serverMTU, usedMTU)` pair. -/
def connect_mtu (clientMaxMTU serverMTU0 mtu : Nat) : Nat × Nat :=
  let serverMTU := if 0 < mtu then mtu else serverMTU0
  (serverMTU, min clientMaxMTU serverMTU)

/-- Claim C3 counterexample: with `ClientMaxMTU = 512`, an
`ATT_EXCHANGE_MTU_RSP` carrying `m = 600` leaves `server_mtu = 600`, not
`min(ClientMaxMTU, m) = 512` as the claim states (the source assigns the
response value unclamped; only `used_mtu` is clamped). -/
theorem claim_C3_counterexample :
    (connect_mtu 512 23 (exchangeMTU_reply (some 600))).1 = 600 ∧
    min 512 600 = 512 ∧ (600 : Nat) ≠ 512 := by
  decide

/-- Claim C3 (amended): after `connect` receives an `ATT_EXCHANGE_MTU_RSP`
carrying MTU value `m`: if `m > 0` then `server_mtu` equals `m` itself
(not clamped to `ClientMaxMTU`), otherwise `server_mtu` is left unchanged;
and in both cases `used_mtu = min(ClientMaxMTU, server_mtu)`. -/
theorem claim_C3 (clientMaxMTU serverMTU0 m : Nat) :
    (0 < m → (connect_mtu clientMaxMTU serverMTU0 (exchangeMTU_reply (some m))).1 = m) ∧
    (m = 0 → (connect_mtu clientMaxMTU serverMTU0 (exchangeMTU_reply (some m))).1 = serverMTU0) ∧
    (connect_mtu clientMaxMTU serverMTU0 (exchangeMTU_reply (some m))).2 =
      min clientMaxMTU (connect_mtu clientMaxMTU serverMTU0 (exchangeMTU_reply (some m))).1 := by
  refine ⟨fun hm => ?_, fun hm => ?_, ?_⟩
  · simp [connect_mtu, exchangeMTU_reply, hm]
  · simp [connect_mtu, exchangeMTU_reply, hm]
  · simp [connect_mtu, exchangeMTU_reply]

/-- Claim C3 witness: the spec's scenario — `MTU_RSP(185)` against
`ClientMaxMTU = 512` yields `server_mtu = 185` and
`used_mtu = min 512 185 = 185`. -/
theorem claim_C3_witness :
    (0 < 185 → (connect_mtu 512 23 (exchangeMTU_reply (some 185))).1 = 185) ∧
    ((185 : Nat) = 0 → (connect_mtu 512 23 (exchangeMTU_reply (some 185))).1 = 23) ∧
    (connect_mtu 512 23 (exchangeMTU_reply (some 185))).2 =
      min 512 (connect_mtu 512 23 (exchangeMTU_reply (some 185))).1 :=
  claim_C3 512 23 185

/-- One event of the reader's indication branch
(GATTHandler.cpp 129-142), in execution order. -/
inductive ReaderEvent where
  | cfmSend (ok : Bool)
  | indListener (cfmSent : Bool)
deriving DecidableEq

/-- The reader's `ATT_HANDLE_VALUE_IND` handling: if the send-confirmation
flag is enabled, `send(AttHandleValueCfm)` runs first (its result is
`sendResult`); then, when a listener is installed, it is invoked with the
`cfmSent` boolean. -/
def handleValueInd (sendIndicationConfirmation listenerPresent sendResult : Bool) :
    List ReaderEvent :=
  let pre := if sendIndicationConfirmation then [ReaderEvent.cfmSend sendResult] else []
  let cfmSent := if sendIndicationConfirmation then sendResult else false
  pre ++ (if listenerPresent then [ReaderEvent.indListener cfmSent] else [])

/-- Claim C9: with the send-confirmation flag enabled the
`ATT_HANDLE_VALUE_CFM` is sent before the indication listener is invoked
and the listener receives exactly the confirmation send's boolean result;
with the flag disabled no confirmation is sent and the listener receives
`false`. -/
theorem claim_C9 (listenerPresent sendResult : Bool) :
    handleValueInd true listenerPresent sendResult =
      ReaderEvent.cfmSend sendResult ::
        (if listenerPresent then [ReaderEvent.indListener sendResult] else []) ∧
    handleValueInd false listenerPresent sendResult =
      (if listenerPresent then [ReaderEvent.indListener false] else []) := by
  cases listenerPresent <;> simp [handleValueInd]

/-! ## Long characteristic read (GATTHandler.cpp 581-661) -/

/-- A response `readCharacteristicValue` can take from the inbound queue:
`ATT_READ_RSP`, `ATT_READ_BLOB_RSP` (each carrying their value),
`ATT_ERROR_RSP` with its error code, or any unexpected opcode. -/
inductive AttReadResponse where
  | readRsp (value : List Nat)
  | readBlobRsp (value : List Nat)
  | errorRsp (code : Nat)
  | unexpected
deriving DecidableEq

/-- The bytes a response contributes to the output buffer `res`. -/
def appendedValue : AttReadResponse → List Nat
  | .readRsp v => v
  | .readBlobRsp v => v
  | .errorRsp _ => []
  | .unexpected => []

/-- The bytes a whole response sequence contributes, in arrival order. -/
def appendedAll : List AttReadResponse → List Nat
  | [] => []
  | rsp :: rest => appendedValue rsp ++ appendedAll rest

/-- One response's processing in `readCharacteristicValue`
(GATTHandler.cpp 613-652): the new `(res, offset)` and the `done` flag.
`getPDUValueSize() < getMaxPDUValueSize(usedMTU)` is the value size
against `usedMTU - 1`. -/
def readCV_process (usedMTU : Nat) (res : List Nat) (offset : Nat) :
    AttReadResponse → List Nat × Nat × Bool
  | .readRsp v => (res ++ v, offset + v.length, decide (v.length < usedMTU - 1))
  | .readBlobRsp v =>
      if v.length = 0 then (res, offset, true)
      else (res ++ v, offset + v.length, decide (v.length < usedMTU - 1))
  | .errorRsp code =>
      -- ATTRIBUTE_NOT_LONG ends cleanly; any other code warns — both set done
      if code = ATTRIBUTE_NOT_LONG then (res, offset, true) else (res, offset, true)
  | .unexpected => (res, offset, true)

/-- The `readCharacteristicValue` while-loop (GATTHandler.cpp 591-657)
over the responses it receives: returns the final `(res, offset)` and the
responses left unconsumed when the loop exits. -/
def readCV_loop (usedMTU : Nat) (expectedLength : Int) :
    List AttReadResponse → List Nat → Nat → List Nat × Nat × List AttReadResponse
  | [], res, offset => (res, offset, [])
  | rsp :: rest, res, offset =>
    if 0 < expectedLength ∧ expectedLength ≤ (offset : Int) then (res, offset, rsp :: rest)
    else if expectedLength = 0 ∧ 0 < offset then (res, offset, rsp :: rest)
    else if (readCV_process usedMTU res offset rsp).2.2 then
      ((readCV_process usedMTU res offset rsp).1,
       (readCV_process usedMTU res offset rsp).2.1, rest)
    else
      readCV_loop usedMTU expectedLength rest
        (readCV_process usedMTU res offset rsp).1
        (readCV_process usedMTU res offset rsp).2.1

/-- Claim side: the claim's top-of-loop termination conditions (i) and
(ii), from its own words. -/
def readTopBreakClaimed (expectedLength : Int) (offset : Nat) : Bool :=
  decide (0 < expectedLength ∧ expectedLength ≤ (offset : Int)) ||
  decide (expectedLength = 0 ∧ 0 < offset)

/-- Claim side: the claim's per-response termination conditions (iii),
(iv) and (v), from its own words: a payload shorter than `used_mtu - 1`,
an empty blob payload, or an `ATT_ERROR_RSP` with `AttributeNotLong`. -/
def readRespDoneClaimed (usedMTU : Nat) : AttReadResponse → Bool
  | .readRsp v => decide (v.length < usedMTU - 1)
  | .readBlobRsp v => v.isEmpty || decide (v.length < usedMTU - 1)
  | .errorRsp code => code == ATTRIBUTE_NOT_LONG
  | .unexpected => false

lemma readCV_process_spec (usedMTU : Nat) (res : List Nat) (offset : Nat)
    (rsp : AttReadResponse) :
    (readCV_process usedMTU res offset rsp).1 = res ++ appendedValue rsp ∧
    (readCV_process usedMTU res offset rsp).2.1 = offset + (appendedValue rsp).length := by
  cases rsp with
  | readRsp v => simp [readCV_process, appendedValue]
  | readBlobRsp v =>
    by_cases hv : v.length = 0
    · have hv0 : v = [] := List.length_eq_zero.mp hv
      subst hv0
      simp [readCV_process, appendedValue]
    · simp [readCV_process, appendedValue, hv]
  | errorRsp code =>
    by_cases hc : code = ATTRIBUTE_NOT_LONG <;> simp [readCV_process, appendedValue, hc]
  | unexpected => simp [readCV_process, appendedValue]

lemma readCV_loop_rem_length (usedMTU : Nat) (expectedLength : Int) :
    ∀ (rsps : List AttReadResponse) (res : List Nat) (offset : Nat),
      (readCV_loop usedMTU expectedLength rsps res offset).2.2.length ≤ rsps.length := by
  intro rsps
  induction rsps with
  | nil => intro res offset; simp [readCV_loop]
  | cons rsp rest ih =>
    intro res offset
    simp only [readCV_loop]
    split_ifs with h1 h2 h3
    · simp
    · simp
    · simp [Nat.le_succ]
    · exact le_trans (ih _ _) (by simp [Nat.le_succ])

/-- Claim C2 (amended): responses contribute their values to `res` in
arrival order and advance `offset` by their size; the loop breaks at the
top of an iteration exactly under the claim's conditions (i)/(ii); and
after consuming a response the loop is done exactly when one of the
claim's conditions (iii)/(iv)/(v) holds — or, beyond the claim's list,
when an `ATT_ERROR_RSP` with any other error code or an unexpected
response arrives (both also terminate, with a warning). -/
theorem claim_C2 (usedMTU : Nat) (expectedLength : Int) :
    (∀ (rsps : List AttReadResponse) (res : List Nat) (offset : Nat),
      ∃ consumed,
        rsps = consumed ++ (readCV_loop usedMTU expectedLength rsps res offset).2.2 ∧
        (readCV_loop usedMTU expectedLength rsps res offset).1 = res ++ appendedAll consumed ∧
        (readCV_loop usedMTU expectedLength rsps res offset).2.1 =
          offset + (appendedAll consumed).length) ∧
    (∀ (res : List Nat) (offset : Nat) (rsp : AttReadResponse),
      (readCV_process usedMTU res offset rsp).1 = res ++ appendedValue rsp ∧
      (readCV_process usedMTU res offset rsp).2.1 = offset + (appendedValue rsp).length) ∧
    (∀ (rsp : AttReadResponse) (rest : List AttReadResponse) (res : List Nat) (offset : Nat),
      readCV_loop usedMTU expectedLength (rsp :: rest) res offset = (res, offset, rsp :: rest) ↔
        readTopBreakClaimed expectedLength offset = true) ∧
    (∀ (res : List Nat) (offset : Nat) (rsp : AttReadResponse),
      (readCV_process usedMTU res offset rsp).2.2 = true ↔
        (readRespDoneClaimed usedMTU rsp = true ∨
         (∃ c, rsp = .errorRsp c ∧ c ≠ ATTRIBUTE_NOT_LONG) ∨ rsp = .unexpected)) := by
  refine ⟨?_, readCV_process_spec usedMTU, ?_, ?_⟩
  · intro rsps
    induction rsps with
    | nil =>
      intro res offset
      exact ⟨[], by simp [readCV_loop, appendedAll]⟩
    | cons rsp rest ih =>
      intro res offset
      simp only [readCV_loop]
      split_ifs with h1 h2 h3
      · exact ⟨[], by simp [appendedAll]⟩
      · exact ⟨[], by simp [appendedAll]⟩
      · refine ⟨[rsp], by simp [appendedAll], ?_, ?_⟩
        · simp [appendedAll, (readCV_process_spec usedMTU res offset rsp).1]
        · simp [appendedAll, (readCV_process_spec usedMTU res offset rsp).2]
      · obtain ⟨c, hc1, hc2, hc3⟩ :=
          ih (readCV_process usedMTU res offset rsp).1 (readCV_process usedMTU res offset rsp).2.1
        refine ⟨rsp :: c, ?_, ?_, ?_⟩
        · simpa using hc1
        · rw [hc2, (readCV_process_spec usedMTU res offset rsp).1]
          simp [appendedAll]
        · rw [hc3, (readCV_process_spec usedMTU res offset rsp).2]
          simp [appendedAll]
          omega
  · intro rsp rest res offset
    constructor
    · intro heq
      by_contra hb
      simp only [readTopBreakClaimed, Bool.or_eq_true, decide_eq_true_eq] at hb
      push_neg at hb
      have h1 : ¬ (0 < expectedLength ∧ expectedLength ≤ (offset : Int)) := by
        intro hx
        have := hb.1 hx.1
        omega
      have h2 : ¬ (expectedLength = 0 ∧ 0 < offset) := by
        intro hx
        have := hb.2 hx.1
        omega
      rw [readCV_loop, if_neg h1, if_neg h2] at heq
      by_cases hd : (readCV_process usedMTU res offset rsp).2.2 = true
      · rw [if_pos hd] at heq
        have := congrArg (fun t => t.2.2.length) heq
        simp at this
      · rw [if_neg hd] at heq
        have hle := readCV_loop_rem_length usedMTU expectedLength rest
          (readCV_process usedMTU res offset rsp).1 (readCV_process usedMTU res offset rsp).2.1
        have := congrArg (fun t => t.2.2.length) heq
        simp only at this
        rw [this] at hle
        simp at hle
    · intro hb
      simp only [readTopBreakClaimed, Bool.or_eq_true, decide_eq_true_eq] at hb
      rcases hb with hb | hb
      · rw [readCV_loop, if_pos hb]
      · rw [readCV_loop]
        by_cases h1 : 0 < expectedLength ∧ expectedLength ≤ (offset : Int)
        · rw [if_pos h1]
        · rw [if_neg h1, if_pos hb]
  · intro res offset rsp
    cases rsp with
    | readRsp v =>
      simp [readCV_process, readRespDoneClaimed]
    | readBlobRsp v =>
      by_cases hv : v.length = 0
      · have hv0 : v = [] := List.length_eq_zero.mp hv
        subst hv0
        simp [readCV_process, readRespDoneClaimed]
      · have hv0 : ¬ v.isEmpty = true := by
          cases v with
          | nil => simp at hv
          | cons a t => simp
        simp [readCV_process, readRespDoneClaimed, hv, hv0]
    | errorRsp code =>
      by_cases hc : code = ATTRIBUTE_NOT_LONG
      · simp [readCV_process, readRespDoneClaimed, hc]
      · constructor
        · intro _
          exact Or.inr (Or.inl ⟨code, rfl, hc⟩)
        · intro _
          simp [readCV_process, hc]
    | unexpected =>
      simp [readCV_process, readRespDoneClaimed]

/-- Claim C2 counterexample: with `used_mtu = 23` and implicit expected
length (`-1`), an `ATT_ERROR_RSP` with error code `0x01` (not
`AttributeNotLong`) terminates the loop — a further pending response is
left unconsumed — although none of the claim's five conditions holds at
that point. -/
theorem claim_C2_counterexample :
    readCV_loop 23 (-1) [.errorRsp 1, .readRsp [5]] [] 0 = ([], 0, [.readRsp [5]]) ∧
    readTopBreakClaimed (-1) 0 = false ∧
    readRespDoneClaimed 23 (.errorRsp 1) = false := by
  decide

/-- Claim C2 witness: with `expected_len = 0` and one request already
completed (`offset = 5 > 0`), the loop stops at the top without consuming
the pending response — condition (ii). -/
theorem claim_C2_witness :
    readCV_loop 23 0 [.readRsp [1]] [] 5 = ([], 5, [.readRsp [1]]) :=
  ((claim_C2 23 0).2.2.1 (.readRsp [1]) [] [] 5).mpr (by decide)

/-! ## Primary service discovery (GATTHandler.cpp 333-389) -/

/-- One element of an `ATT_READ_BY_GROUP_TYPE_RSP`: start handle, end
(group) handle, service UUID (abstracted to its canonical value). -/
structure GroupElem where
  startHandle : Nat
  endHandle : Nat
  uuid : Nat
deriving DecidableEq

/-- A discovered `GATTPrimaryService`, reduced to its declaration's
`{start, end, uuid}` handle range. -/
structure GATTPrimaryService where
  startHandle : Nat
  endHandle : Nat
  uuid : Nat
deriving DecidableEq

/-- A response `discoverPrimaryServices` can take from the inbound
queue. -/
inductive AttDiscoverResponse where
  | groupRsp (elems : List GroupElem)
  | errorRsp (code : Nat)
  | unexpected
deriving DecidableEq

def mkPrimaryService (e : GroupElem) : GATTPrimaryService :=
  ⟨e.startHandle, e.endHandle, e.uuid⟩

/-- The services one response appends to `result`, in element order. -/
def appendedServices : AttDiscoverResponse → List GATTPrimaryService
  | .groupRsp elems => elems.map mkPrimaryService
  | .errorRsp _ => []
  | .unexpected => []

/-- The services a whole response sequence appends. -/
def appendedServicesAll : List AttDiscoverResponse → List GATTPrimaryService
  | [] => []
  | rsp :: rest => appendedServices rsp ++ appendedServicesAll rest

/-- `p->getElementEndHandle(count-1)`: the last element's end handle (the
source never evaluates this on an empty response; `discoverRspWf` rules
those out). -/
def lastEndHandle (elems : List GroupElem) : Nat :=
  (elems.getLast?.getD ⟨0, 0, 0⟩).endHandle

/-- One response's processing in `discoverPrimaryServices`
(GATTHandler.cpp 355-380): the new result list, the next request's start
handle, and the `done` flag. -/
def discoverPrim_process (startHandle : Nat) (result : List GATTPrimaryService) :
    AttDiscoverResponse → List GATTPrimaryService × Nat × Bool
  | .groupRsp elems =>
      if lastEndHandle elems < 0xffff then
        (result ++ elems.map mkPrimaryService, lastEndHandle elems + 1, false)
      else
        (result ++ elems.map mkPrimaryService, startHandle, true)
  | .errorRsp _ => (result, startHandle, true)
  | .unexpected => (result, startHandle, true)

/-- The `discoverPrimaryServices` while-loop (GATTHandler.cpp 348-385)
over the responses it receives: the discovered list and the responses
left unconsumed when the loop exits. -/
def discoverPrim_loop :
    List AttDiscoverResponse → Nat → List GATTPrimaryService →
      List GATTPrimaryService × List AttDiscoverResponse
  | [], _, result => (result, [])
  | rsp :: rest, startHandle, result =>
    if (discoverPrim_process startHandle result rsp).2.2 then
      ((discoverPrim_process startHandle result rsp).1, rest)
    else
      discoverPrim_loop rest (discoverPrim_process startHandle result rsp).2.1
        (discoverPrim_process startHandle result rsp).1

/-- `discoverPrimaryServices` proper: `startHandle = 0x0001`, empty result. -/
def discoverPrimaryServices (rsps : List AttDiscoverResponse) :
    List GATTPrimaryService × List AttDiscoverResponse :=
  discoverPrim_loop rsps 1 []

/-- Well-formed wire response: a group response carries at least one
element and every end handle fits in 16 bits. -/
def discoverRspWf : AttDiscoverResponse → Bool
  | .groupRsp elems => !elems.isEmpty && elems.all (fun e => e.endHandle ≤ 0xffff)
  | .errorRsp _ => true
  | .unexpected => true

/-- Claim side: the claim's finish conditions, from its own words — the
last element's end handle is `0xFFFF`, or the response is an
`ATT_ERROR_RSP`. -/
def primFinishClaimed : AttDiscoverResponse → Bool
  | .groupRsp elems => lastEndHandle elems == 0xffff
  | .errorRsp _ => true
  | .unexpected => false

lemma lastEndHandle_le {elems : List GroupElem} {n : Nat}
    (hne : elems ≠ []) (hall : ∀ e ∈ elems, e.endHandle ≤ n) :
    lastEndHandle elems ≤ n := by
  induction elems with
  | nil => exact absurd rfl hne
  | cons a l ih =>
    cases l with
    | nil =>
      simpa [lastEndHandle] using hall a (by simp)
    | cons b m =>
      have : lastEndHandle (b :: m) ≤ n :=
        ih (by simp) (fun e he => hall e (List.mem_cons_of_mem a he))
      simpa [lastEndHandle] using this

/-- Claim C5 (amended): each `ATT_READ_BY_GROUP_TYPE_RSP` appends one
`GATTPrimaryService {start, end, uuid}` per element in order; when the
last element's end handle is below `0xFFFF` the next request's start
handle becomes that end handle plus one; and the loop finishes exactly
when the last element's end handle is `0xFFFF` or an `ATT_ERROR_RSP`
arrives — or, beyond the claim's list, on any unexpected response (which
also finishes the loop, with a warning). -/
theorem claim_C5 :
    (∀ (rsps : List AttDiscoverResponse) (startHandle : Nat)
        (result : List GATTPrimaryService),
      ∃ consumed,
        rsps = consumed ++ (discoverPrim_loop rsps startHandle result).2 ∧
        (discoverPrim_loop rsps startHandle result).1 =
          result ++ appendedServicesAll consumed) ∧
    (∀ (startHandle : Nat) (result : List GATTPrimaryService) (rsp : AttDiscoverResponse),
      (discoverPrim_process startHandle result rsp).1 = result ++ appendedServices rsp) ∧
    (∀ (startHandle : Nat) (result : List GATTPrimaryService) (elems : List GroupElem),
      lastEndHandle elems < 0xffff →
        (discoverPrim_process startHandle result (.groupRsp elems)).2.1 =
          lastEndHandle elems + 1) ∧
    (∀ (startHandle : Nat) (result : List GATTPrimaryService) (rsp : AttDiscoverResponse),
      discoverRspWf rsp = true →
        ((discoverPrim_process startHandle result rsp).2.2 = true ↔
          (primFinishClaimed rsp = true ∨ rsp = .unexpected))) := by
  refine ⟨?_, ?_, ?_, ?_⟩
  · intro rsps
    induction rsps with
    | nil =>
      intro startHandle result
      exact ⟨[], by simp [discoverPrim_loop, appendedServicesAll]⟩
    | cons rsp rest ih =>
      intro startHandle result
      simp only [discoverPrim_loop]
      split_ifs with hd
      · refine ⟨[rsp], by simp, ?_⟩
        cases rsp with
        | groupRsp elems =>
          by_cases hl : lastEndHandle elems < 0xffff <;>
            simp [discoverPrim_process, appendedServicesAll, appendedServices, hl]
        | errorRsp c => simp [discoverPrim_process, appendedServicesAll, appendedServices]
        | unexpected => simp [discoverPrim_process, appendedServicesAll, appendedServices]
      · obtain ⟨c, hc1, hc2⟩ :=
          ih (discoverPrim_process startHandle result rsp).2.1
            (discoverPrim_process startHandle result rsp).1
        refine ⟨rsp :: c, by simpa using hc1, ?_⟩
        rw [hc2]
        cases rsp with
        | groupRsp elems =>
          by_cases hl : lastEndHandle elems < 0xffff <;>
            simp [discoverPrim_process, appendedServicesAll, appendedServices, hl]
        | errorRsp code => simp [discoverPrim_process, appendedServicesAll, appendedServices]
        | unexpected => simp [discoverPrim_process, appendedServicesAll, appendedServices]
  · intro startHandle result rsp
    cases rsp with
    | groupRsp elems =>
      by_cases hl : lastEndHandle elems < 0xffff <;>
        simp [discoverPrim_process, appendedServices, hl]
    | errorRsp code => simp [discoverPrim_process, appendedServices]
    | unexpected => simp [discoverPrim_process, appendedServices]
  · intro startHandle result elems hl
    simp [discoverPrim_process, hl]
  · intro startHandle result rsp hwf
    cases rsp with
    | groupRsp elems =>
      simp only [discoverRspWf, Bool.and_eq_true, Bool.not_eq_true', List.all_eq_true] at hwf
      have hne : elems ≠ [] := by
        intro h
        rw [h] at hwf
        simp at hwf
      have hle : lastEndHandle elems ≤ 0xffff :=
        lastEndHandle_le hne (fun e he => by simpa using hwf.2 e he)
      by_cases hl : lastEndHandle elems < 0xffff
      · simp only [discoverPrim_process, if_pos hl, primFinishClaimed]
        constructor
        · intro h
          simp at h
        · intro h
          rcases h with h | h
          · simp only [beq_iff_eq] at h
            omega
          · exact absurd h (by simp)
      · have heq : lastEndHandle elems = 0xffff := by omega
        simp [discoverPrim_process, hl, primFinishClaimed, heq]
    | errorRsp code => simp [discoverPrim_process, primFinishClaimed]
    | unexpected => simp [discoverPrim_process, primFinishClaimed]

/-- Claim C5 counterexample: an unexpected (non-group, non-error) reply
finishes the loop — a further pending group response stays unconsumed —
although neither of the claim's finish conditions holds. -/
theorem claim_C5_counterexample :
    discoverPrim_loop [.unexpected, .groupRsp [⟨1, 5, 77⟩]] 1 [] =
      ([], [.groupRsp [⟨1, 5, 77⟩]]) ∧
    primFinishClaimed .unexpected = false := by
  decide

/-- Claim C5 witness: a well-formed group response whose last element ends
at `0xFFFF` finishes the loop. -/
theorem claim_C5_witness :
    (discoverPrim_process 1 [] (.groupRsp [⟨1, 0xffff, 7⟩])).2.2 = true :=
  (((claim_C5).2.2.2) 1 [] (.groupRsp [⟨1, 0xffff, 7⟩]) (by decide)).mpr
    (Or.inl (by decide))

/-! ## Client characteristic configuration discovery
(GATTHandler.cpp 457-532) -/

/-- A characteristic declaration as `discoverClientCharacteristicConfig`
uses it: `handle` is the characteristic value handle (the source's
`decl.handle`, read from the element value's handle field),
`service_handle_end` the owning service's end handle, `config` the
attached CCCD `(handle, value)` if any. -/
structure GATTCharacterisicsDecl where
  handle : Nat
  service_handle_end : Nat
  config : Option (Nat × Nat)
deriving DecidableEq

/-- One element of the `ATT_READ_BY_TYPE_RSP`: its total size `esz` and
the two 16-bit fields the source reads when `esz == 4` (the CCCD handle
and value). -/
structure TypeRspElem where
  esz : Nat
  v1 : Nat
  v2 : Nat
deriving DecidableEq

/-- `decl_handle_end` of GATTHandler.cpp 495-500: the next declaration's
value handle, or this declaration's `service_handle_end` for the last
declaration. -/
def decl_handle_end (decls : List GATTCharacterisicsDecl) (j : Nat)
    (d : GATTCharacterisicsDecl) : Nat :=
  match decls.get? (j + 1) with
  | some d' => d'.handle
  | none => d.service_handle_end

/-- The inner `for(j …)` of GATTHandler.cpp 493-506 for one `esz == 4`
element: attach the CCCD to every declaration whose
`(handle, decl_handle_end]` interval contains the CCCD handle.
`allDecls` is the full list the neighbour lookup indexes (declaration
handles never change, so indexing the original list is the source's
behaviour). -/
def attachScan (e : TypeRspElem) (allDecls : List GATTCharacterisicsDecl) :
    Nat → List GATTCharacterisicsDecl → List GATTCharacterisicsDecl
  | _, [] => []
  | j, d :: rest =>
    (if d.handle < e.v1 ∧ e.v1 ≤ decl_handle_end allDecls j d then
      { d with config := some (e.v1, e.v2) }
     else d) :: attachScan e allDecls (j + 1) rest

/-- One response element's processing (GATTHandler.cpp 488-509): only
elements of total size exactly 4 touch the declaration list. -/
def attachCCC_elem (decls : List GATTCharacterisicsDecl) (e : TypeRspElem) :
    List GATTCharacterisicsDecl :=
  if e.esz = 4 then attachScan e decls 0 decls else decls

/-- All elements of one `ATT_READ_BY_TYPE_RSP`, in order. -/
def attachCCC (decls : List GATTCharacterisicsDecl) (elems : List TypeRspElem) :
    List GATTCharacterisicsDecl :=
  elems.foldl attachCCC_elem decls

/-- Every attached CCCD in `l` sits strictly above its declaration's value
handle, at or below the next declaration's value handle (or the service
end for the last declaration), and stems from an `esz = 4` element of
`E`. -/
def GoodCCC (E : List TypeRspElem) (l : List GATTCharacterisicsDecl) : Prop :=
  ∀ j d, l.get? j = some d → ∀ ch cv, d.config = some (ch, cv) →
    d.handle < ch ∧ ch ≤ decl_handle_end l j d ∧
      ∃ e ∈ E, e.esz = 4 ∧ e.v1 = ch ∧ e.v2 = cv

lemma attachScan_get? (e : TypeRspElem) (all : List GATTCharacterisicsDecl) :
    ∀ (l : List GATTCharacterisicsDecl) (j0 k : Nat),
      (attachScan e all j0 l).get? k = (l.get? k).map (fun d =>
        if d.handle < e.v1 ∧ e.v1 ≤ decl_handle_end all (j0 + k) d then
          { d with config := some (e.v1, e.v2) }
        else d) := by
  intro l
  induction l with
  | nil => intro j0 k; simp [attachScan]
  | cons d rest ih =>
    intro j0 k
    cases k with
    | zero => simp [attachScan]
    | succ k' =>
      have harith : j0 + 1 + k' = j0 + (k' + 1) := by omega
      simp only [attachScan, List.get?_cons_succ, ih (j0 + 1) k', harith]

lemma attachCCC_elem_good (E : List TypeRspElem) (e : TypeRspElem) (he : e ∈ E)
    (l : List GATTCharacterisicsDecl) (hg : GoodCCC E l) :
    GoodCCC E (attachCCC_elem l e) := by
  unfold attachCCC_elem
  split_ifs with hesz
  · intro j d hj ch cv hc
    have hget0 : ∀ k, (attachScan e l 0 l).get? k = (l.get? k).map (fun d =>
        if d.handle < e.v1 ∧ e.v1 ≤ decl_handle_end l (0 + k) d then
          { d with config := some (e.v1, e.v2) }
        else d) := fun k => attachScan_get? e l l 0 k
    have hj' := hj
    rw [hget0 j] at hj'
    cases hl : l.get? j with
    | none => rw [hl] at hj'; simp at hj'
    | some d0 =>
      rw [hl] at hj'
      simp only [Option.map_some', Option.some.injEq] at hj'
      have hzero : 0 + j = j := by omega
      rw [hzero] at hj'
      by_cases hcond : d0.handle < e.v1 ∧ e.v1 ≤ decl_handle_end l j d0
      · rw [if_pos hcond] at hj'
        have hd : d = { d0 with config := some (e.v1, e.v2) } := hj'.symm
        subst hd
        simp only at hc
        have hch : e.v1 = ch ∧ e.v2 = cv := by
          have := hc
          simp only [Option.some.injEq, Prod.mk.injEq] at this
          exact this
        refine ⟨by simpa [hch.1] using hcond.1, ?_, ⟨e, he, hesz, hch.1, hch.2⟩⟩
        -- transfer the bound from `l` to the scanned list
        have hend : decl_handle_end (attachScan e l 0 l) j { d0 with config := some (e.v1, e.v2) } =
            decl_handle_end l j d0 := by
          unfold decl_handle_end
          rw [hget0 (j + 1)]
          cases hnx : l.get? (j + 1) with
          | none => simp
          | some d' =>
            simp only [Option.map_some']
            have hzero' : 0 + (j + 1) = j + 1 := by omega
            rw [hzero']
            by_cases hc' : d'.handle < e.v1 ∧ e.v1 ≤ decl_handle_end l (j + 1) d'
            · rw [if_pos hc']
            · rw [if_neg hc']
        rw [hend, ← hch.1]
        exact hcond.2
      · rw [if_neg hcond] at hj'
        have hd : d = d0 := hj'.symm
        subst hd
        obtain ⟨hlt, hle, hex⟩ := hg j d hl ch cv hc
        refine ⟨hlt, ?_, hex⟩
        have hend : decl_handle_end (attachScan e l 0 l) j d = decl_handle_end l j d := by
          unfold decl_handle_end
          rw [hget0 (j + 1)]
          cases hnx : l.get? (j + 1) with
          | none => simp
          | some d' =>
            simp only [Option.map_some']
            have hzero' : 0 + (j + 1) = j + 1 := by omega
            rw [hzero']
            by_cases hc' : d'.handle < e.v1 ∧ e.v1 ≤ decl_handle_end l (j + 1) d'
            · rw [if_pos hc']
            · rw [if_neg hc']
        rw [hend]
        exact hle
  · exact hg

lemma attachCCC_fold_good (E : List TypeRspElem) :
    ∀ (elems : List TypeRspElem), (∀ e ∈ elems, e ∈ E) →
      ∀ l, GoodCCC E l → GoodCCC E (List.foldl attachCCC_elem l elems) := by
  intro elems
  induction elems with
  | nil => intro _ l hgood; simpa using hgood
  | cons e rest ih =>
    intro hsub l hgood
    simp only [List.foldl_cons]
    exact ih (fun x hx => hsub x (List.mem_cons_of_mem e hx)) _
      (attachCCC_elem_good E e (hsub e (List.mem_cons_self e rest)) l hgood)

/-- Claim C6: for every CCCD attached by
`discoverClientCharacteristicConfig` to a declaration list whose configs
start out empty, the declaration `d` it is attached to satisfies
`d.handle < config.handle`, and `config.handle` is at most the next
declaration's value handle (or `d`'s service end handle when `d` is
last); and the attachment stems from a response element of total size
exactly 4 carrying that handle and value. -/
theorem claim_C6 (decls : List GATTCharacterisicsDecl) (elems : List TypeRspElem)
    (h0 : ∀ d ∈ decls, d.config = none) (j : Nat) (d : GATTCharacterisicsDecl)
    (hj : (attachCCC decls elems).get? j = some d) (ch cv : Nat)
    (hc : d.config = some (ch, cv)) :
    d.handle < ch ∧ ch ≤ decl_handle_end (attachCCC decls elems) j d ∧
      ∃ e ∈ elems, e.esz = 4 ∧ e.v1 = ch ∧ e.v2 = cv := by
  have hgood : GoodCCC elems decls := by
    intro j' d' hj' ch' cv' hc'
    have hmem : d' ∈ decls := List.get?_mem hj'
    rw [h0 d' hmem] at hc'
    exact absurd hc' (by simp)
  exact attachCCC_fold_good elems elems (fun e he => he) decls hgood j d hj ch cv hc

/-- Claim C6 witness: one declaration with value handle 2 and service end
10; one `esz = 4` element with CCCD handle 3, value 1 — the attachment
lands inside `(2, 10]` and stems from that element. -/
theorem claim_C6_witness :
    (2 : Nat) < 3 ∧ (3 : Nat) ≤ 10 ∧
      ∃ e ∈ [(⟨4, 3, 1⟩ : TypeRspElem)], e.esz = 4 ∧ e.v1 = 3 ∧ e.v2 = 1 :=
  claim_C6 [⟨2, 10, none⟩] [⟨4, 3, 1⟩] (by decide) 0 ⟨2, 10, some (3, 1)⟩ rfl 3 1 rfl

end DirectBT
